import Mathlib

/-!
# Verification of the CYD-System-Monitor firmware core

Shallow embedding of `src/monitor_firmware/src/main.cpp`.

Modelling conventions:
* C `float` fields are modelled as `ℚ`; C `int` fields as `ℤ`; colors and
  pixel coordinates as `ℕ`.
* `millis()` (an `unsigned long`, 32-bit on the target) is modelled as a `ℕ`
  read modulo `2 ^ 32`; the C expression `millis() - t` on unsigned longs is
  the wraparound difference `usub`.  Within one control cycle all `millis()`
  reads are modelled by the cycle's single timestamp `now`.
* The serial line of a cycle is `Option (Option Json)`: `none` means
  `Serial.available()` was false, `some none` a line on which
  `deserializeJson` reported an error, and `some (some j)` a line parsed to
  the JSON document `j`.  ArduinoJson's `deserializeJson` fails only on
  malformed / oversized input, never because a member is missing; member
  lookup on a missing key yields a null value, and numeric conversion of
  null yields zero.  (String-to-number coercion of ArduinoJson's `as<T>` is
  not modelled; no claim depends on it.)
* The drawing operations issued against the sprite are recorded as a list of
  `DrawOp`; `pushSprite` is the final `DrawOp.push`.  `setTextDatum` /
  `setTextColor` state is folded into the fg/bg color arguments of each text
  op; the single-argument `setTextColor(c)` of TFT_eSPI sets both fg and bg
  to `c`.
-/

set_option autoImplicit false

/-- `#define COLOR_BG 0x0000` -/
def COLOR_BG : ℕ := 0x0000

/-- `#define COLOR_TEXT 0xF800` -/
def COLOR_TEXT : ℕ := 0xF800

/-- `#define COLOR_DIM 0x8800` -/
def COLOR_DIM : ℕ := 0x8800

/-- `#define COLOR_BRIGHT 0xFDA0` -/
def COLOR_BRIGHT : ℕ := 0xFDA0

/-- `#define COLOR_WARN 0xFFE0` -/
def COLOR_WARN : ℕ := 0xFFE0

/-- `#define SCREEN_W 320` -/
def SCREEN_W : ℕ := 320

/-- `#define SCREEN_H 240` -/
def SCREEN_H : ℕ := 240

/-- `#define TOUCH_LEFT_ZONE 80` -/
def TOUCH_LEFT_ZONE : ℕ := 80

/-- `#define TOUCH_RIGHT_ZONE 240` -/
def TOUCH_RIGHT_ZONE : ℕ := 240

/-- `enum Mode { MODE_STATS, MODE_REACTOR };` -/
inductive Mode where
  | MODE_STATS : Mode
  | MODE_REACTOR : Mode
deriving DecidableEq, Repr

/-- `struct SystemStats` (main.cpp lines 24-51).  The C member
`float cores[16]` is modelled as a `List ℚ` that always keeps 16 entries
(the decoder overwrites a prefix and leaves the tail, exactly like the C
array). -/
structure SystemStats where
  cpu_load : ℚ
  cpu_temp : ℚ
  cpu_freq : ℤ
  cpu_pwr : ℚ
  cores : List ℚ
  core_count : ℕ
  ram_used : ℚ
  ram_total : ℚ
  ram_p : ℚ
  swap_used : ℚ
  swap_p : ℚ
  cpu_fan : ℤ
  gpu_load : ℤ
  vram_used : ℚ
  vram_total : ℚ
  gpu_temp : ℤ
  gpu_pwr : ℚ
  gpu_fan : ℤ
  disk_p : ℚ
  net_sent : ℚ
  net_recv : ℚ
deriving DecidableEq, Repr

/-- The zero-initialised global `SystemStats stats;`. -/
def initStats : SystemStats :=
  { cpu_load := 0, cpu_temp := 0, cpu_freq := 0, cpu_pwr := 0
    cores := List.replicate 16 0, core_count := 0
    ram_used := 0, ram_total := 0, ram_p := 0
    swap_used := 0, swap_p := 0, cpu_fan := 0
    gpu_load := 0, vram_used := 0, vram_total := 0
    gpu_temp := 0, gpu_pwr := 0, gpu_fan := 0
    disk_p := 0, net_sent := 0, net_recv := 0 }

/-- JSON documents as produced by `deserializeJson` on a well-formed line. -/
inductive Json where
  | null : Json
  | jbool : Bool → Json
  | num : ℚ → Json
  | str : String → Json
  | arr : List Json → Json
  | obj : List (String × Json) → Json

/-- Member access `doc[key]` on a `JsonVariant`: the value under the first
matching key of an object, a null variant otherwise (missing member or
non-object receiver). -/
def jget (j : Json) (key : String) : Json :=
  match j with
  | Json.obj fields =>
    match fields.find? (fun p => p.1 == key) with
    | some p => p.2
    | none => Json.null
  | _ => Json.null

/-- Truncation toward zero, the C `(int)` cast from a floating value. -/
def ratTrunc (q : ℚ) : ℤ := Int.tdiv q.num q.den

/-- ArduinoJson numeric conversion of a variant to `float`: numbers give
their value, booleans 1/0, everything else (null in particular) 0. -/
def asFloat (j : Json) : ℚ :=
  match j with
  | Json.num q => q
  | Json.jbool true => 1
  | _ => 0

/-- ArduinoJson numeric conversion of a variant to `int`. -/
def asInt (j : Json) : ℤ :=
  match j with
  | Json.num q => ratTrunc q
  | Json.jbool true => 1
  | _ => 0

/-- `JsonArray cores = doc["cpu"]["cores"];` — a null / non-array variant
behaves as an empty array (its `size()` is 0). -/
def docCores (doc : Json) : List Json :=
  match jget (jget doc "cpu") "cores" with
  | Json.arr xs => xs
  | _ => []

/-- The field-by-field overwrite of `stats` performed on a successful
`deserializeJson` (main.cpp lines 301-329).  The per-core loop
`for (i < core_count) stats.cores[i] = cores[i]` overwrites a prefix of the
16-entry array and leaves the tail as it was. -/
def applyDecode (s : SystemStats) (doc : Json) : SystemStats :=
  let cores := docCores doc
  let n := min cores.length 16
  { cpu_load := asFloat (jget (jget doc "cpu") "load")
    cpu_temp := asFloat (jget (jget doc "cpu") "temp")
    cpu_freq := asInt (jget (jget doc "cpu") "freq")
    cpu_pwr := asFloat (jget (jget doc "cpu") "pwr")
    cpu_fan := asInt (jget (jget doc "cpu") "fan")
    core_count := n
    cores := (cores.map asFloat).take n ++ s.cores.drop n
    ram_used := asFloat (jget (jget doc "ram") "used")
    ram_total := asFloat (jget (jget doc "ram") "total")
    ram_p := asFloat (jget (jget doc "ram") "p")
    swap_used := asFloat (jget (jget doc "swap") "used")
    swap_p := asFloat (jget (jget doc "swap") "p")
    gpu_load := asInt (jget (jget doc "gpu") "gpu_load")
    vram_used := asFloat (jget (jget doc "gpu") "vram_used")
    vram_total := asFloat (jget (jget doc "gpu") "vram_total")
    gpu_temp := asInt (jget (jget doc "gpu") "gpu_temp")
    gpu_pwr := asFloat (jget (jget doc "gpu") "gpu_pwr")
    gpu_fan := asInt (jget (jget doc "gpu") "gpu_fan")
    disk_p := asFloat (jget (jget doc "disk") "p")
    net_sent := asFloat (jget (jget doc "net") "sent")
    net_recv := asFloat (jget (jget doc "net") "recv") }

/-- `uint16_t heatColor(float load)` (main.cpp lines 152-162). -/
def heatColor (load : ℚ) : ℕ :=
  if load < 20 then 0x2104
  else if load < 40 then COLOR_DIM
  else if load < 60 then COLOR_TEXT
  else if load < 80 then COLOR_BRIGHT
  else COLOR_WARN

/-- Modelled from the spec: the heat-band bucketing
`band(load) = \x7b0:<20, 1:<40, 2:<60, 3:<80, 4:else\x7d`. -/
def band (load : ℚ) : ℕ :=
  if load < 20 then 0
  else if load < 40 then 1
  else if load < 60 then 2
  else if load < 80 then 3
  else 4

/-- The five fixed band colors, coolest to warmest. -/
def bandColor (b : ℕ) : ℕ :=
  match b with
  | 0 => 0x2104
  | 1 => COLOR_DIM
  | 2 => COLOR_TEXT
  | 3 => COLOR_BRIGHT
  | _ => COLOR_WARN

/-- One recorded drawing operation against the sprite. -/
inductive DrawOp where
  | fillScreen : ℕ → DrawOp
  | fillRect : ℕ → ℕ → ℕ → ℕ → ℕ → DrawOp
  | drawRect : ℕ → ℕ → ℕ → ℕ → ℕ → DrawOp
  | text : String → ℕ → ℕ → ℕ → ℕ → ℕ → DrawOp
  | push : DrawOp
deriving DecidableEq, Repr

/-- Model of Arduino `String(float_value, 1)`: decimal rendering with one
fractional digit.  The exact rounding of the C library is immaterial to the
claims (no claim constrains these value strings beyond functionality in the
snapshot). -/
def fmt1 (q : ℚ) : String :=
  let n : ℤ := Int.floor (q * 10 + 1 / 2)
  toString (Int.tdiv n 10) ++ "." ++ toString (Int.natAbs (Int.tmod n 10))

/-- `void drawLine(int y, String label, String value, uint16_t color)`
(main.cpp lines 90-98): dim label at x=10, value in `color` at x=310. -/
def drawLine (y : ℕ) (label value : String) (color : ℕ) : List DrawOp :=
  [ DrawOp.text label 10 y 2 COLOR_DIM COLOR_BG,
    DrawOp.text value 310 y 2 color COLOR_BG ]

/-- `uint16_t cpuColor = (stats.cpu_load > 80) ? COLOR_WARN : COLOR_TEXT;` -/
def cpuColor (s : SystemStats) : ℕ :=
  if s.cpu_load > 80 then COLOR_WARN else COLOR_TEXT

/-- `uint16_t gpuColor = (stats.gpu_load > 80) ? COLOR_WARN : COLOR_TEXT;` -/
def gpuColor (s : SystemStats) : ℕ :=
  if s.gpu_load > 80 then COLOR_WARN else COLOR_TEXT

/-- `uint16_t ramColor = (stats.ram_p > 85) ? COLOR_WARN : COLOR_TEXT;` -/
def ramColor (s : SystemStats) : ℕ :=
  if s.ram_p > 85 then COLOR_WARN else COLOR_TEXT

/-- `uint16_t swapColor = (stats.swap_p > 50) ? COLOR_WARN : COLOR_TEXT;` -/
def swapColor (s : SystemStats) : ℕ :=
  if s.swap_p > 50 then COLOR_WARN else COLOR_TEXT

/-- `uint16_t diskColor = (stats.disk_p > 90) ? COLOR_WARN : COLOR_TEXT;` -/
def diskColor (s : SystemStats) : ℕ :=
  if s.disk_p > 90 then COLOR_WARN else COLOR_TEXT

/-- The ONLINE/OFFLINE status string both renderers emit just before
`pushSprite` (main.cpp lines 144-147 and 254-257). -/
def statusFooter (conn : Bool) (y font : ℕ) : List DrawOp :=
  [ DrawOp.text (if conn then "ONLINE" else "OFFLINE") (SCREEN_W / 2) y font
      (if conn then COLOR_TEXT else COLOR_WARN) COLOR_BG ]

/-- Everything `drawStatsScreen` draws before its status footer
(main.cpp lines 101-142): title plus the seven labeled rows at
y = 50, 72, ..., 182 (y starts at 50 and steps by 22). -/
def statsRows (s : SystemStats) : List DrawOp :=
  [ DrawOp.fillScreen COLOR_BG,
    DrawOp.text "SYSTEM MONITOR" (SCREEN_W / 2) 8 2 COLOR_BRIGHT COLOR_BG ]
  ++ drawLine 50 "CPU"
      (toString (ratTrunc s.cpu_load) ++ "% " ++ toString (ratTrunc s.cpu_temp) ++ "C")
      (cpuColor s)
  ++ drawLine 72 "GPU"
      (toString s.gpu_load ++ "% " ++ toString s.gpu_temp ++ "C")
      (gpuColor s)
  ++ drawLine 94 "PWR" (toString (ratTrunc s.gpu_pwr) ++ "W") COLOR_TEXT
  ++ drawLine 116 "VRAM"
      (fmt1 (s.vram_used / 1024) ++ "/" ++ fmt1 (s.vram_total / 1024) ++ "GB")
      COLOR_TEXT
  ++ drawLine 138 "RAM"
      (fmt1 s.ram_used ++ "/" ++ fmt1 s.ram_total ++ "GB")
      (ramColor s)
  ++ drawLine 160 "SWAP" (toString (ratTrunc s.swap_p) ++ "%") (swapColor s)
  ++ drawLine 182 "DISK" (toString (ratTrunc s.disk_p) ++ "%") (diskColor s)

/-- `void drawStatsScreen()` (main.cpp lines 100-150), the Dashboard
renderer, as a pure function of the snapshot and the connected flag. -/
def drawStatsScreen (s : SystemStats) (conn : Bool) : List DrawOp :=
  statsRows s ++ statusFooter conn (SCREEN_H - 8) 2 ++ [DrawOp.push]

/-- `float load = (idx < stats.core_count) ? stats.cores[idx] : 0;`
(main.cpp line 182). -/
def coreLoadAt (s : SystemStats) (idx : ℕ) : ℚ :=
  if idx < s.core_count then s.cores.getD idx 0 else 0

/-- One cell of the 4x4 reactor grid (main.cpp lines 177-194);
cellW = cellH = 35, startX = 40, startY = 30, gap = 5. -/
def reactorCell (s : SystemStats) (row col : ℕ) : List DrawOp :=
  let idx := row * 4 + col
  let x := 40 + col * (35 + 5)
  let y := 30 + row * (35 + 5)
  let load := coreLoadAt s idx
  let color := heatColor load
  [ DrawOp.fillRect x y 35 35 color,
    DrawOp.drawRect x y 35 35 COLOR_BG,
    DrawOp.text (toString idx) (x + 35 / 2) (y + 35 / 2 - 5) 2 COLOR_BG color,
    DrawOp.text (toString (ratTrunc load) ++ "%") (x + 35 / 2) (y + 35 / 2 + 7) 1
      COLOR_BG color ]

/-- The 4x4 grid of per-core heat cells (main.cpp lines 176-195). -/
def reactorCells (s : SystemStats) : List DrawOp :=
  (List.range 4).flatMap (fun row => (List.range 4).flatMap (fun col => reactorCell s row col))

/-- `float vramP = (stats.vram_total > 0) ?
(stats.vram_used / stats.vram_total * 100) : 0;` (main.cpp lines 211-212). -/
def vramPercent (s : SystemStats) : ℚ :=
  if s.vram_total > 0 then s.vram_used / s.vram_total * 100 else 0

/-- One auxiliary tile (GPU / VRAM / RAM / SWAP) at boxX = 220, boxW = 90,
boxH = 35 (main.cpp lines 197-234). -/
def auxTile (y : ℕ) (label : String) (valueText : String) (load : ℚ) : List DrawOp :=
  [ DrawOp.fillRect 220 y 90 35 (heatColor load),
    DrawOp.drawRect 220 y 90 35 COLOR_BG,
    DrawOp.text label (220 + 90 / 2) (y + 10) 2 COLOR_BG COLOR_BG,
    DrawOp.text valueText (220 + 90 / 2) (y + 24) 1 COLOR_BG COLOR_BG ]

/-- The four auxiliary tiles, stacked at y = 30, 70, 110, 150. -/
def reactorAux (s : SystemStats) : List DrawOp :=
  auxTile 30 "GPU" (toString s.gpu_load ++ "%") (s.gpu_load : ℚ)
  ++ auxTile 70 "VRAM" (toString (ratTrunc (vramPercent s)) ++ "%") (vramPercent s)
  ++ auxTile 110 "RAM" (toString (ratTrunc s.ram_p) ++ "%") s.ram_p
  ++ auxTile 150 "SWAP" (toString (ratTrunc s.swap_p) ++ "%") s.swap_p

/-- The compact CPU/GPU temperature-power-fan readouts at
infoY = 30 + 4*(35+5) + 5 = 195 (main.cpp lines 236-252). -/
def reactorInfo (s : SystemStats) : List DrawOp :=
  [ DrawOp.text "CPU" 5 195 1 COLOR_DIM COLOR_BG,
    DrawOp.text (toString (ratTrunc s.cpu_temp) ++ "C") 27 195 1 COLOR_TEXT COLOR_BG,
    DrawOp.text (toString (ratTrunc s.cpu_pwr) ++ "W") 52 195 1 COLOR_TEXT COLOR_BG,
    DrawOp.text (toString s.cpu_fan ++ "r") 79 195 1 COLOR_DIM COLOR_BG,
    DrawOp.text "GPU" 130 195 1 COLOR_DIM COLOR_BG,
    DrawOp.text (toString s.gpu_temp ++ "C") 152 195 1 COLOR_TEXT COLOR_BG,
    DrawOp.text (toString (ratTrunc s.gpu_pwr) ++ "W") 177 195 1 COLOR_TEXT COLOR_BG,
    DrawOp.text (toString s.gpu_fan ++ "%") 207 195 1 COLOR_DIM COLOR_BG ]

/-- Everything `drawReactorScreen` draws before its status footer. -/
def reactorBody (s : SystemStats) : List DrawOp :=
  [ DrawOp.fillScreen COLOR_BG,
    DrawOp.text "REACTOR CORE 4" (SCREEN_W / 2) 5 2 COLOR_BRIGHT COLOR_BG ]
  ++ reactorCells s ++ reactorAux s ++ reactorInfo s

/-- `void drawReactorScreen()` (main.cpp lines 164-260), the Grid renderer,
as a pure function of the snapshot and the connected flag. -/
def drawReactorScreen (s : SystemStats) (conn : Bool) : List DrawOp :=
  reactorBody s ++ statusFooter conn (SCREEN_H - 5) 1 ++ [DrawOp.push]

/-- `2 ^ 32`, the modulus of the 32-bit `unsigned long` returned by
`millis()`. -/
def UL_MOD : ℕ := 4294967296

/-- Wraparound subtraction of 32-bit unsigned timestamps: the value of the C
expression `a - b` on `unsigned long` (32-bit) operands. -/
def usub (a b : ℕ) : ℕ := (a % UL_MOD + UL_MOD - b % UL_MOD) % UL_MOD

/-- The mutable state carried across iterations of `loop()`: the globals
`currentMode`, `modeChanged`, `stats`, `lastDataTime`, `isConnected` and the
statics `lastBtn`, `lastDrawTime`.  `lastBtn = true` is the C level HIGH. -/
structure LoopState where
  currentMode : Mode
  modeChanged : Bool
  lastBtn : Bool
  stats : SystemStats
  lastDataTime : ℕ
  isConnected : Bool
  lastDrawTime : ℕ
deriving DecidableEq, Repr

/-- The global / static initial values (main.cpp lines 20-22, 52-55, 263,
341). -/
def initState : LoopState :=
  { currentMode := Mode.MODE_REACTOR, modeChanged := true, lastBtn := true
    stats := initStats, lastDataTime := 0, isConnected := false
    lastDrawTime := 0 }

/-- The external inputs sampled by one iteration of `loop()`:
`btn` is `digitalRead(0)` (`true` = HIGH = released), `touch` the result of
`tft.getTouch` above the confidence threshold, `line` the serial line (see
the module comment), `now` the cycle's `millis()` value. -/
structure CycleInput where
  btn : Bool
  touch : Option (ℕ × ℕ)
  line : Option (Option Json)
  now : ℕ

/-- Button handling (main.cpp lines 263-270): a HIGH→LOW edge toggles the
mode and sets `modeChanged`; `lastBtn` always tracks the sample. -/
def buttonStep (s : LoopState) (btn : Bool) : LoopState :=
  let s1 :=
    if btn = false ∧ s.lastBtn = true then
      { s with
        currentMode :=
          if s.currentMode = Mode.MODE_STATS then Mode.MODE_REACTOR
          else Mode.MODE_STATS,
        modeChanged := true }
    else s
  { s1 with lastBtn := btn }

/-- Touch handling (main.cpp lines 272-287): left zone forces MODE_STATS,
right zone forces MODE_REACTOR, each only when it is an actual change;
touches in between are ignored. -/
def touchStep (s : LoopState) (touch : Option (ℕ × ℕ)) : LoopState :=
  match touch with
  | none => s
  | some (touchX, _touchY) =>
    if touchX < TOUCH_LEFT_ZONE then
      if s.currentMode ≠ Mode.MODE_STATS then
        { s with currentMode := Mode.MODE_STATS, modeChanged := true }
      else s
    else if touchX > TOUCH_RIGHT_ZONE then
      if s.currentMode ≠ Mode.MODE_REACTOR then
        { s with currentMode := Mode.MODE_REACTOR, modeChanged := true }
      else s
    else s

/-- Serial handling (main.cpp lines 289-331).  Returns the new state and the
`dataUpdated` flag.  On a deserialization error (`some none`) nothing at all
happens; on success `lastDataTime`/`isConnected` are set and the snapshot is
overwritten field by field. -/
def serialStep (s : LoopState) (line : Option (Option Json)) (now : ℕ) :
    LoopState × Bool :=
  match line with
  | none => (s, false)
  | some none => (s, false)
  | some (some doc) =>
    ({ s with
        lastDataTime := now % UL_MOD,
        isConnected := true,
        stats := applyDecode s.stats doc }, true)

/-- Connection-loss check (main.cpp lines 333-338): once per cycle, if more
than 3000 ms elapsed since `lastDataTime` and we were connected, flip
`isConnected` and request a redraw. -/
def linkStep (s : LoopState) (dataUpdated : Bool) (now : ℕ) :
    LoopState × Bool :=
  if usub now s.lastDataTime > 3000 then
    if s.isConnected then ({ s with isConnected := false }, true)
    else (s, dataUpdated)
  else (s, dataUpdated)

/-- Redraw decision and render (main.cpp lines 340-349): draw when data
changed, the mode changed, or more than 200 ms passed since the last draw;
`lastDrawTime` is then reset.  Note that `modeChanged` is NOT cleared
here (nor anywhere else in the program). -/
def renderStep (s : LoopState) (dataUpdated : Bool) (now : ℕ) :
    LoopState × Option (List DrawOp) :=
  if dataUpdated = true ∨ s.modeChanged = true ∨ usub now s.lastDrawTime > 200 then
    ({ s with lastDrawTime := now % UL_MOD },
      some (if s.currentMode = Mode.MODE_STATS then
              drawStatsScreen s.stats s.isConnected
            else
              drawReactorScreen s.stats s.isConnected))
  else (s, none)

/-- One full iteration of `void loop()` (main.cpp lines 262-350): button,
touch, serial, link check, then the redraw decision.  Returns the new state
and the frame drawn this cycle, if any. -/
def loopStep (s : LoopState) (inp : CycleInput) : LoopState × Option (List DrawOp) :=
  let s1 := buttonStep s inp.btn
  let s2 := touchStep s1 inp.touch
  let r3 := serialStep s2 inp.line inp.now
  let r4 := linkStep r3.1 r3.2 inp.now
  renderStep r4.1 r4.2 inp.now

lemma buttonStep_stats (s : LoopState) (b : Bool) :
    (buttonStep s b).stats = s.stats := by
  unfold buttonStep
  split <;> rfl

lemma buttonStep_isConnected (s : LoopState) (b : Bool) :
    (buttonStep s b).isConnected = s.isConnected := by
  unfold buttonStep
  split <;> rfl

lemma buttonStep_lastDataTime (s : LoopState) (b : Bool) :
    (buttonStep s b).lastDataTime = s.lastDataTime := by
  unfold buttonStep
  split <;> rfl

lemma buttonStep_modeChanged_true (s : LoopState) (b : Bool)
    (h : s.modeChanged = true) : (buttonStep s b).modeChanged = true := by
  unfold buttonStep
  split <;> first | rfl | exact h

lemma touchStep_stats (s : LoopState) (t : Option (ℕ × ℕ)) :
    (touchStep s t).stats = s.stats := by
  rcases t with _ | ⟨x, y⟩
  · rfl
  · simp only [touchStep]
    split_ifs <;> rfl

lemma touchStep_isConnected (s : LoopState) (t : Option (ℕ × ℕ)) :
    (touchStep s t).isConnected = s.isConnected := by
  rcases t with _ | ⟨x, y⟩
  · rfl
  · simp only [touchStep]
    split_ifs <;> rfl

lemma touchStep_lastDataTime (s : LoopState) (t : Option (ℕ × ℕ)) :
    (touchStep s t).lastDataTime = s.lastDataTime := by
  rcases t with _ | ⟨x, y⟩
  · rfl
  · simp only [touchStep]
    split_ifs <;> rfl

lemma touchStep_modeChanged_true (s : LoopState) (t : Option (ℕ × ℕ))
    (h : s.modeChanged = true) : (touchStep s t).modeChanged = true := by
  rcases t with _ | ⟨x, y⟩
  · exact h
  · simp only [touchStep]
    split_ifs <;> first | rfl | exact h

lemma serialStep_modeChanged (s : LoopState) (ln : Option (Option Json)) (now : ℕ) :
    ((serialStep s ln now).1).modeChanged = s.modeChanged := by
  unfold serialStep
  rcases ln with _ | (_ | j) <;> rfl

lemma serialStep_currentMode (s : LoopState) (ln : Option (Option Json)) (now : ℕ) :
    ((serialStep s ln now).1).currentMode = s.currentMode := by
  unfold serialStep
  rcases ln with _ | (_ | j) <;> rfl

lemma linkStep_stats (s : LoopState) (d : Bool) (now : ℕ) :
    ((linkStep s d now).1).stats = s.stats := by
  unfold linkStep
  split_ifs <;> rfl

lemma linkStep_modeChanged (s : LoopState) (d : Bool) (now : ℕ) :
    ((linkStep s d now).1).modeChanged = s.modeChanged := by
  unfold linkStep
  split_ifs <;> rfl

lemma renderStep_stats (s : LoopState) (d : Bool) (now : ℕ) :
    ((renderStep s d now).1).stats = s.stats := by
  unfold renderStep
  split <;> rfl

lemma renderStep_isConnected (s : LoopState) (d : Bool) (now : ℕ) :
    ((renderStep s d now).1).isConnected = s.isConnected := by
  unfold renderStep
  split <;> rfl

lemma renderStep_modeChanged (s : LoopState) (d : Bool) (now : ℕ) :
    ((renderStep s d now).1).modeChanged = s.modeChanged := by
  unfold renderStep
  split <;> rfl

lemma usub_store_self (now : ℕ) : usub now (now % UL_MOD) = 0 := by
  unfold usub UL_MOD
  omega

lemma loopStep_failed_line_stats (s : LoopState) (btn : Bool)
    (touch : Option (ℕ × ℕ)) (now : ℕ) :
    ((loopStep s ⟨btn, touch, some none, now⟩).1).stats = s.stats := by
  unfold loopStep
  dsimp only
  simp only [serialStep]
  rw [renderStep_stats, linkStep_stats, touchStep_stats, buttonStep_stats]

/-- C2: on any cycle whose serial line fails to decode (`some none`), no
field of the live Snapshot is modified: the `stats` record after `loop()`
equals the one before. -/
theorem c2_decode_failure_preserves_snapshot (s : LoopState) (btn : Bool)
    (touch : Option (ℕ × ℕ)) (now : ℕ) :
    ((loopStep s ⟨btn, touch, some none, now⟩).1).stats = s.stats :=
  loopStep_failed_line_stats s btn touch now

/-- C3: `isConnected` becomes true in the very cycle of any successful
decode; with no successful decode it stays true while the wraparound elapsed
time `usub now lastDataTime` is at most 3000 ms, drops to false exactly when
that elapsed time exceeds 3000 ms (the check runs once per cycle, inside
`loopStep`), and never rises without a decode.  The last conjunct relates
`usub` to the real elapsed time `now - lastDataTime` in the absence of
wraparound. -/
theorem c3_connected_transition_discipline :
    (∀ (s : LoopState) (btn : Bool) (touch : Option (ℕ × ℕ)) (now : ℕ) (j : Json),
        ((loopStep s ⟨btn, touch, some (some j), now⟩).1).isConnected = true) ∧
    (∀ (s : LoopState) (btn : Bool) (touch : Option (ℕ × ℕ)) (now : ℕ)
        (ln : Option (Option Json)), (ln = none ∨ ln = some none) →
        s.isConnected = true → usub now s.lastDataTime ≤ 3000 →
        ((loopStep s ⟨btn, touch, ln, now⟩).1).isConnected = true) ∧
    (∀ (s : LoopState) (btn : Bool) (touch : Option (ℕ × ℕ)) (now : ℕ)
        (ln : Option (Option Json)), (ln = none ∨ ln = some none) →
        s.isConnected = true → usub now s.lastDataTime > 3000 →
        ((loopStep s ⟨btn, touch, ln, now⟩).1).isConnected = false) ∧
    (∀ (s : LoopState) (btn : Bool) (touch : Option (ℕ × ℕ)) (now : ℕ)
        (ln : Option (Option Json)), (ln = none ∨ ln = some none) →
        s.isConnected = false →
        ((loopStep s ⟨btn, touch, ln, now⟩).1).isConnected = false) ∧
    (∀ a b : ℕ, b ≤ a → a - b < UL_MOD → usub a b = a - b) := by
  refine ⟨?_, ?_, ?_, ?_, ?_⟩
  · intro s btn touch now j
    unfold loopStep
    dsimp only
    simp only [serialStep]
    rw [renderStep_isConnected]
    unfold linkStep
    dsimp only
    rw [usub_store_self, if_neg (by norm_num)]
  · intro s btn touch now ln hln hc ht
    rcases hln with h | h <;> subst h <;>
    · unfold loopStep
      dsimp only
      simp only [serialStep]
      rw [renderStep_isConnected]
      unfold linkStep
      rw [touchStep_lastDataTime, buttonStep_lastDataTime,
        if_neg (not_lt.mpr ht)]
      rw [touchStep_isConnected, buttonStep_isConnected]
      exact hc
  · intro s btn touch now ln hln hc ht
    rcases hln with h | h <;> subst h <;>
    · unfold loopStep
      dsimp only
      simp only [serialStep]
      rw [renderStep_isConnected]
      unfold linkStep
      rw [touchStep_lastDataTime, buttonStep_lastDataTime, if_pos ht,
        touchStep_isConnected, buttonStep_isConnected, if_pos hc]
  · intro s btn touch now ln hln hc
    rcases hln with h | h <;> subst h <;>
    · unfold loopStep
      dsimp only
      simp only [serialStep]
      rw [renderStep_isConnected]
      unfold linkStep
      rw [touchStep_isConnected, buttonStep_isConnected]
      split_ifs with h1 h2
      · exact absurd h2 (by simp [hc])
      · rw [touchStep_isConnected, buttonStep_isConnected]
        exact hc
      · rw [touchStep_isConnected, buttonStep_isConnected]
        exact hc
  · intro a b h1 h2
    unfold usub UL_MOD at *
    omega

/-- A connected state: the globals right after some earlier successful
decode at time 0. -/
def connState : LoopState := { initState with isConnected := true }

/-- Witness for C3: concrete decode at t=5 connects; an idle cycle at
t=3000 (elapsed exactly 3000) keeps the connection; an idle cycle at t=3001
drops it; and `usub` is plain subtraction without wraparound. -/
theorem c3_witness :
    ((loopStep initState ⟨true, none, some (some (Json.obj [])), 5⟩).1).isConnected = true ∧
    (connState.isConnected = true ∧ usub 3000 connState.lastDataTime ≤ 3000 ∧
      ((loopStep connState ⟨true, none, none, 3000⟩).1).isConnected = true) ∧
    (usub 3001 connState.lastDataTime > 3000 ∧
      ((loopStep connState ⟨true, none, none, 3001⟩).1).isConnected = false) ∧
    ((0 : ℕ) ≤ 3001 ∧ 3001 - 0 < UL_MOD ∧ usub 3001 0 = 3001 - 0) :=
  ⟨c3_connected_transition_discipline.1 initState true none 5 (Json.obj []),
   ⟨rfl, by decide,
    c3_connected_transition_discipline.2.1 connState true none 3000 none
      (Or.inl rfl) rfl (by decide)⟩,
   ⟨by decide,
    c3_connected_transition_discipline.2.2.1 connState true none 3001 none
      (Or.inl rfl) rfl (by decide)⟩,
   ⟨by decide, by decide,
    c3_connected_transition_discipline.2.2.2.2 3001 0 (by decide) (by decide)⟩⟩

/-- An idle control cycle at time `now`: button released, no touch, no
serial line. -/
def idleInput (now : ℕ) : CycleInput := ⟨true, none, none, now⟩

/-- C1 counterexample: from the initial state, the first cycle performs a
redraw, yet `modeChanged` is still set afterwards, and on the very next
cycle (1 ms later, far below the 200 ms keep-alive) `modeChanged` by itself
triggers another redraw.  The render step never clears the flag. -/
theorem c1_counterexample :
    ((loopStep initState (idleInput 0)).2).isSome = true ∧
    ((loopStep initState (idleInput 0)).1).modeChanged = true ∧
    usub 1 ((loopStep initState (idleInput 0)).1).lastDrawTime ≤ 200 ∧
    ((loopStep ((loopStep initState (idleInput 0)).1) (idleInput 1)).2).isSome = true := by
  refine ⟨rfl, rfl, by decide, rfl⟩

/-- C1 amended: after every redraw the keep-alive timer (`lastDrawTime`) is
reset to the current time, but `modeChanged` is NOT cleared — the render
step leaves it untouched, and since nothing in `loop()` ever assigns it
false, once set it stays set for every subsequent cycle (so it keeps
triggering redraws). -/
theorem c1_redraw_resets_timer_but_not_flag :
    (∀ (s : LoopState) (d : Bool) (now : ℕ) (s₂ : LoopState) (ops : List DrawOp),
        renderStep s d now = (s₂, some ops) →
        s₂.lastDrawTime = now % UL_MOD ∧ s₂.modeChanged = s.modeChanged) ∧
    (∀ (s : LoopState) (inp : CycleInput),
        s.modeChanged = true → ((loopStep s inp).1).modeChanged = true) := by
  constructor
  · intro s d now s₂ ops h
    unfold renderStep at h
    split at h
    · injection h with h1 h2
      subst h1
      exact ⟨rfl, rfl⟩
    · injection h with h1 h2
      exact absurd h2 (by simp)
  · intro s inp h
    unfold loopStep
    dsimp only
    rw [renderStep_modeChanged, linkStep_modeChanged, serialStep_modeChanged]
    exact touchStep_modeChanged_true _ _ (buttonStep_modeChanged_true _ _ h)

/-- Witness for C1's amended statement: the initial cycle's redraw resets
the timer and leaves `modeChanged` as it was; the flag survives the cycle. -/
theorem c1_witness :
    ((renderStep initState true 0).1.lastDrawTime = 0 % UL_MOD ∧
      (renderStep initState true 0).1.modeChanged = initState.modeChanged) ∧
    (initState.modeChanged = true ∧
      ((loopStep initState (idleInput 3)).1).modeChanged = true) :=
  ⟨c1_redraw_resets_timer_but_not_flag.1 initState true 0
      ((renderStep initState true 0).1) (drawReactorScreen initStats false) rfl,
   rfl, c1_redraw_resets_timer_but_not_flag.2 initState (idleInput 3) rfl⟩

/-- A state holding nonzero telemetry from an earlier decode. -/
def preState : LoopState :=
  { initState with stats := { initStats with cpu_load := 50 } }

/-- The empty JSON object `{}` arriving on serial: valid structured text
with every required top-level group (cpu, ram, swap, gpu, disk, net)
missing. -/
def emptyDocInput : CycleInput := ⟨true, none, some (some (Json.obj [])), 0⟩

/-- C4 counterexample: `deserializeJson` accepts the record `\x7b\x7d` even
though every required top-level group is missing — the cycle treats it as a
successful decode (`isConnected` turns true) and overwrites the live
Snapshot (the previous `cpu_load = 50` is replaced by 0), instead of
rejecting it and leaving the Snapshot untouched. -/
theorem c4_counterexample :
    ((loopStep preState emptyDocInput).1).stats.cpu_load = 0 ∧
    ((loopStep preState emptyDocInput).1).isConnected = true ∧
    ((loopStep preState emptyDocInput).1).stats ≠ preState.stats := by
  refine ⟨rfl, rfl, by decide⟩

/-- C4 amended: decoding fails only when the line is not valid structured
text (a `deserializeJson` error); a record that parses but lacks required
top-level groups is still accepted — the Snapshot is overwritten field by
field, with every field of a missing group read as null and converted to
zero. -/
theorem c4_parse_error_is_the_only_failure (s : LoopState) (btn : Bool)
    (touch : Option (ℕ × ℕ)) (now : ℕ) (j : Json) :
    ((loopStep s ⟨btn, touch, some (some j), now⟩).1).stats = applyDecode s.stats j ∧
    ((loopStep s ⟨btn, touch, some none, now⟩).1).stats = s.stats ∧
    asFloat (jget (jget (Json.obj []) "cpu") "load") = 0 := by
  refine ⟨?_, loopStep_failed_line_stats s btn touch now, rfl⟩
  unfold loopStep
  dsimp only
  simp only [serialStep]
  rw [renderStep_stats, linkStep_stats]
  dsimp only
  rw [touchStep_stats, buttonStep_stats]

/-- C5: `heatColor` realises exactly the spec's 5-band bucketing with strict
less-than boundaries (band 4 catching everything at or above 80): the code's
color equals the band's color for every load, the seven boundary loads
19.9, 20, 39.9, 40, 79.9, 80, 100 fall in bands 0, 1, 1, 2, 3, 4, 4, and
both the band and the chosen color are monotone in the load. -/
theorem c5_heat_band_exact (a b q : ℚ) :
    heatColor q = bandColor (band q) ∧
    band (199 / 10) = 0 ∧ band 20 = 1 ∧ band (399 / 10) = 1 ∧ band 40 = 2 ∧
    band (799 / 10) = 3 ∧ band 80 = 4 ∧ band 100 = 4 ∧
    (a ≤ b → band a ≤ band b) ∧
    (a ≤ b → heatColor a ≤ heatColor b) ∧
    (80 ≤ q → band q = 4) := by
  refine ⟨?_, by norm_num [band], by norm_num [band], by norm_num [band],
    by norm_num [band], by norm_num [band], by norm_num [band],
    by norm_num [band], ?_, ?_, ?_⟩
  · unfold heatColor band bandColor
    split_ifs <;> rfl
  · intro h
    unfold band
    split_ifs <;> try norm_num
    all_goals linarith
  · intro h
    unfold heatColor
    split_ifs <;> try norm_num [COLOR_DIM, COLOR_TEXT, COLOR_BRIGHT, COLOR_WARN]
    all_goals linarith
  · intro h
    unfold band
    split_ifs <;> first | rfl | (exfalso; linarith)

/-- Witness for C5: the monotonicity and catch-all conjuncts at concrete
loads 10 ≤ 30 and 90 ≥ 80. -/
theorem c5_witness :
    ((10 : ℚ) ≤ 30 ∧ band 10 ≤ band 30 ∧ heatColor 10 ≤ heatColor 30) ∧
    ((80 : ℚ) ≤ 90 ∧ band 90 = 4) :=
  ⟨⟨by norm_num,
    (c5_heat_band_exact 10 30 0).2.2.2.2.2.2.2.2.1 (by norm_num),
    (c5_heat_band_exact 10 30 0).2.2.2.2.2.2.2.2.2.1 (by norm_num)⟩,
   ⟨by norm_num,
    (c5_heat_band_exact 0 0 90).2.2.2.2.2.2.2.2.2.2 (by norm_num)⟩⟩

/-- C6: a successful decode of a record whose cores array has N entries sets
`core_count = min N 16` (hence never above 16); and neither renderer reads a
core entry at an index ≥ `core_count` — replacing all such entries changes
no drawing operation of either screen. -/
theorem c6_core_count_bound_and_no_stale_reads :
    (∀ (s : SystemStats) (doc : Json),
        (applyDecode s doc).core_count = min (docCores doc).length 16 ∧
        (applyDecode s doc).core_count ≤ 16) ∧
    (∀ (s : SystemStats) (c₂ : List ℚ) (conn : Bool),
        (∀ i, i < s.core_count → c₂.getD i 0 = s.cores.getD i 0) →
        drawReactorScreen { s with cores := c₂ } conn = drawReactorScreen s conn ∧
        drawStatsScreen { s with cores := c₂ } conn = drawStatsScreen s conn) := by
  constructor
  · intro s doc
    exact ⟨rfl, min_le_right _ _⟩
  · intro s c₂ conn h
    have hl : coreLoadAt { s with cores := c₂ } = coreLoadAt s := by
      funext idx
      unfold coreLoadAt
      dsimp only
      split_ifs with hidx
      · exact h idx hidx
      · rfl
    have hcell : ∀ row col : ℕ,
        reactorCell { s with cores := c₂ } row col = reactorCell s row col := by
      intro row col
      simp only [reactorCell, hl]
    have hcells : reactorCells { s with cores := c₂ } = reactorCells s := by
      unfold reactorCells
      simp only [hcell]
    constructor
    · unfold drawReactorScreen reactorBody
      rw [hcells]
      rfl
    · rfl

/-- A snapshot with `core_count = 2` and some populated core entries. -/
def twoCoreStats : SystemStats :=
  { initStats with core_count := 2, cores := [50, 60, 70, 80] ++ List.replicate 12 0 }

/-- The same 16-entry core array with every entry at index ≥ 2 replaced. -/
def twoCoreStale : List ℚ := [50, 60, 99, 13] ++ List.replicate 12 7

/-- Witness for C6: redecorating the stale tail (indices ≥ core_count = 2)
leaves both rendered frames unchanged, and a concrete 3-entry record decodes
to `core_count = 3`. -/
theorem c6_witness :
    (∀ i, i < twoCoreStats.core_count →
        twoCoreStale.getD i 0 = twoCoreStats.cores.getD i 0) ∧
    drawReactorScreen { twoCoreStats with cores := twoCoreStale } true =
      drawReactorScreen twoCoreStats true ∧
    drawStatsScreen { twoCoreStats with cores := twoCoreStale } true =
      drawStatsScreen twoCoreStats true :=
  ⟨by intro i hi; norm_num [twoCoreStats] at hi; interval_cases i <;> rfl,
   (c6_core_count_bound_and_no_stale_reads.2 twoCoreStats twoCoreStale true
      (by intro i hi; norm_num [twoCoreStats] at hi; interval_cases i <;> rfl)).1,
   (c6_core_count_bound_and_no_stale_reads.2 twoCoreStats twoCoreStale true
      (by intro i hi; norm_num [twoCoreStats] at hi; interval_cases i <;> rfl)).2⟩

lemma buttonStep_released (s : LoopState) :
    buttonStep s true = { s with lastBtn := true } := by
  unfold buttonStep
  rw [if_neg]
  simp

/-- C7: in a cycle with no serial input whose connection-loss check flips
`isConnected` from true to false, no field of the Snapshot changes, the
cycle redraws immediately with the old telemetry and `conn = false`, and the
connected flag feeds each renderer only through its final status footer
(`statsRows` / `reactorBody` do not depend on it), so only the
ONLINE/OFFLINE indicator differs between the connected and disconnected
frames. -/
theorem c7_disconnect_keeps_last_snapshot (s : LoopState) (now : ℕ)
    (hc : s.isConnected = true) (ht : usub now s.lastDataTime > 3000) :
    ((loopStep s ⟨true, none, none, now⟩).1).stats = s.stats ∧
    ((loopStep s ⟨true, none, none, now⟩).1).isConnected = false ∧
    (loopStep s ⟨true, none, none, now⟩).2 =
      some (if s.currentMode = Mode.MODE_STATS then drawStatsScreen s.stats false
            else drawReactorScreen s.stats false) ∧
    (∀ (st : SystemStats) (conn : Bool),
        drawStatsScreen st conn =
          statsRows st ++ statusFooter conn (SCREEN_H - 8) 2 ++ [DrawOp.push] ∧
        drawReactorScreen st conn =
          reactorBody st ++ statusFooter conn (SCREEN_H - 5) 1 ++ [DrawOp.push]) ∧
    statusFooter true (SCREEN_H - 8) 2 =
      [DrawOp.text "ONLINE" (SCREEN_W / 2) (SCREEN_H - 8) 2 COLOR_TEXT COLOR_BG] ∧
    statusFooter false (SCREEN_H - 8) 2 =
      [DrawOp.text "OFFLINE" (SCREEN_W / 2) (SCREEN_H - 8) 2 COLOR_WARN COLOR_BG] := by
  refine ⟨?_, ?_, ?_, fun st conn => ⟨rfl, rfl⟩, rfl, rfl⟩ <;>
  · unfold loopStep
    dsimp only
    rw [buttonStep_released]
    simp only [touchStep, serialStep]
    unfold linkStep
    dsimp only
    rw [if_pos ht, if_pos hc]
    unfold renderStep
    dsimp only
    rw [if_pos (Or.inl rfl)]

/-- Witness for C7: from a connected state with last success at t=0, an
idle cycle at t=3001 flips to OFFLINE while the snapshot is unchanged. -/
theorem c7_witness :
    (connState.isConnected = true ∧ usub 3001 connState.lastDataTime > 3000) ∧
    ((loopStep connState ⟨true, none, none, 3001⟩).1).stats = connState.stats ∧
    ((loopStep connState ⟨true, none, none, 3001⟩).1).isConnected = false :=
  ⟨⟨rfl, by decide⟩,
   (c7_disconnect_keeps_last_snapshot connState 3001 rfl (by decide)).1,
   (c7_disconnect_keeps_last_snapshot connState 3001 rfl (by decide)).2.1⟩

lemma warn_iff_q (x t : ℚ) :
    (t < x ↔ (if x > t then COLOR_WARN else COLOR_TEXT) = COLOR_WARN) ∧
    (x ≤ t ↔ (if x > t then COLOR_WARN else COLOR_TEXT) = COLOR_TEXT) := by
  by_cases h : t < x
  · rw [if_pos h]
    exact ⟨iff_of_true h rfl,
      iff_of_false (not_le.mpr h) (by norm_num [COLOR_WARN, COLOR_TEXT])⟩
  · rw [if_neg h]
    exact ⟨iff_of_false h (by norm_num [COLOR_WARN, COLOR_TEXT]),
      iff_of_true (not_lt.mp h) rfl⟩

lemma warn_iff_z (x t : ℤ) :
    (t < x ↔ (if x > t then COLOR_WARN else COLOR_TEXT) = COLOR_WARN) ∧
    (x ≤ t ↔ (if x > t then COLOR_WARN else COLOR_TEXT) = COLOR_TEXT) := by
  by_cases h : t < x
  · rw [if_pos h]
    exact ⟨iff_of_true h rfl,
      iff_of_false (not_le.mpr h) (by norm_num [COLOR_WARN, COLOR_TEXT])⟩
  · rw [if_neg h]
    exact ⟨iff_of_false h (by norm_num [COLOR_WARN, COLOR_TEXT]),
      iff_of_true (not_lt.mp h) rfl⟩

/-- C8: the Dashboard picks the warning color exactly when CPU load > 80,
GPU load > 80, RAM percent > 85, swap percent > 50, disk percent > 90, and
the normal color otherwise; the rendered rows carry exactly these colors,
the power row is always normal-colored, and the footer is "ONLINE" in the
normal color when connected and "OFFLINE" in the warning color when not. -/
theorem c8_dashboard_warning_thresholds (s : SystemStats) (conn : Bool) :
    ((80 < s.cpu_load ↔ cpuColor s = COLOR_WARN) ∧
      (s.cpu_load ≤ 80 ↔ cpuColor s = COLOR_TEXT)) ∧
    ((80 < s.gpu_load ↔ gpuColor s = COLOR_WARN) ∧
      (s.gpu_load ≤ 80 ↔ gpuColor s = COLOR_TEXT)) ∧
    ((85 < s.ram_p ↔ ramColor s = COLOR_WARN) ∧
      (s.ram_p ≤ 85 ↔ ramColor s = COLOR_TEXT)) ∧
    ((50 < s.swap_p ↔ swapColor s = COLOR_WARN) ∧
      (s.swap_p ≤ 50 ↔ swapColor s = COLOR_TEXT)) ∧
    ((90 < s.disk_p ↔ diskColor s = COLOR_WARN) ∧
      (s.disk_p ≤ 90 ↔ diskColor s = COLOR_TEXT)) ∧
    DrawOp.text (toString (ratTrunc s.cpu_load) ++ "% " ++ toString (ratTrunc s.cpu_temp) ++ "C")
      310 50 2 (cpuColor s) COLOR_BG ∈ drawStatsScreen s conn ∧
    DrawOp.text (toString s.gpu_load ++ "% " ++ toString s.gpu_temp ++ "C")
      310 72 2 (gpuColor s) COLOR_BG ∈ drawStatsScreen s conn ∧
    DrawOp.text (toString (ratTrunc s.gpu_pwr) ++ "W")
      310 94 2 COLOR_TEXT COLOR_BG ∈ drawStatsScreen s conn ∧
    DrawOp.text (fmt1 s.ram_used ++ "/" ++ fmt1 s.ram_total ++ "GB")
      310 138 2 (ramColor s) COLOR_BG ∈ drawStatsScreen s conn ∧
    DrawOp.text (toString (ratTrunc s.swap_p) ++ "%")
      310 160 2 (swapColor s) COLOR_BG ∈ drawStatsScreen s conn ∧
    DrawOp.text (toString (ratTrunc s.disk_p) ++ "%")
      310 182 2 (diskColor s) COLOR_BG ∈ drawStatsScreen s conn ∧
    DrawOp.text (if conn then "ONLINE" else "OFFLINE") (SCREEN_W / 2) (SCREEN_H - 8) 2
      (if conn then COLOR_TEXT else COLOR_WARN) COLOR_BG ∈ drawStatsScreen s conn := by
  refine ⟨warn_iff_q s.cpu_load 80, warn_iff_z s.gpu_load 80, warn_iff_q s.ram_p 85,
    warn_iff_q s.swap_p 50, warn_iff_q s.disk_p 90, ?_, ?_, ?_, ?_, ?_, ?_, ?_⟩ <;>
    simp [drawStatsScreen, statsRows, drawLine, statusFooter]

/-- C9: a touch that re-selects the already-active layout is a no-op — a
left-zone touch while already in MODE_STATS, or a right-zone touch while
already in MODE_REACTOR, returns the UI state unchanged (in particular
`modeChanged` is not raised, so no redraw trigger arises from it). -/
theorem c9_redundant_touch_noop (s : LoopState) (x y : ℕ) :
    (x < TOUCH_LEFT_ZONE → s.currentMode = Mode.MODE_STATS →
      touchStep s (some (x, y)) = s) ∧
    (x > TOUCH_RIGHT_ZONE → s.currentMode = Mode.MODE_REACTOR →
      touchStep s (some (x, y)) = s) := by
  constructor
  · intro hx hm
    simp only [touchStep]
    rw [if_pos hx, if_neg (by simp [hm])]
  · intro hx hm
    have hnl : ¬ x < TOUCH_LEFT_ZONE := by
      unfold TOUCH_LEFT_ZONE TOUCH_RIGHT_ZONE at *
      omega
    simp only [touchStep]
    rw [if_neg hnl, if_pos hx, if_neg (by simp [hm])]

/-- A state currently displaying the Dashboard layout. -/
def statsModeState : LoopState := { initState with currentMode := Mode.MODE_STATS }

/-- Witness for C9: a touch at x=10 while in MODE_STATS and a touch at
x=250 while in MODE_REACTOR both leave the state untouched. -/
theorem c9_witness :
    (10 < TOUCH_LEFT_ZONE ∧ statsModeState.currentMode = Mode.MODE_STATS ∧
      touchStep statsModeState (some (10, 0)) = statsModeState) ∧
    (250 > TOUCH_RIGHT_ZONE ∧ initState.currentMode = Mode.MODE_REACTOR ∧
      touchStep initState (some (250, 0)) = initState) :=
  ⟨⟨by decide, rfl, (c9_redundant_touch_noop statsModeState 10 0).1 (by decide) rfl⟩,
   ⟨by decide, rfl, (c9_redundant_touch_noop initState 250 0).2 (by decide) rfl⟩⟩

/-- C10: the Grid renderer's VRAM tile percentage is guarded — it is
`vram_used / vram_total * 100` exactly when `vram_total > 0` and 0
otherwise (in particular 0 on the all-zero initial snapshot), and the tile
drawn by `drawReactorScreen` is heat-colored from that total value, so
rendering any snapshot never divides by zero. -/
theorem c10_vram_tile_guarded (s : SystemStats) (conn : Bool) :
    (0 < s.vram_total → vramPercent s = s.vram_used / s.vram_total * 100) ∧
    (s.vram_total ≤ 0 → vramPercent s = 0) ∧
    vramPercent initStats = 0 ∧
    DrawOp.fillRect 220 70 90 35 (heatColor (vramPercent s)) ∈ drawReactorScreen s conn := by
  refine ⟨?_, ?_, rfl, ?_⟩
  · intro h
    unfold vramPercent
    rw [if_pos h]
  · intro h
    unfold vramPercent
    rw [if_neg (not_lt.mpr h)]
  · simp [drawReactorScreen, reactorBody, reactorAux, auxTile]

/-- A snapshot with a populated VRAM group. -/
def vramStats : SystemStats := { initStats with vram_used := 50, vram_total := 200 }

/-- Witness for C10: with `vram_total = 200` the guard takes the division
branch; with the all-zero initial snapshot it yields 0. -/
theorem c10_witness :
    ((0 : ℚ) < vramStats.vram_total ∧
      vramPercent vramStats = vramStats.vram_used / vramStats.vram_total * 100) ∧
    (initStats.vram_total ≤ 0 ∧ vramPercent initStats = 0) :=
  ⟨⟨by norm_num [vramStats, initStats],
    (c10_vram_tile_guarded vramStats true).1 (by norm_num [vramStats, initStats])⟩,
   ⟨by norm_num [initStats],
    (c10_vram_tile_guarded initStats true).2.1 (by norm_num [initStats])⟩⟩
